import Mathlib

/-!
Verification of the `gist` subsampling and similarity pipelines
(`src/gist/gist.py`), as a shallow embedding in Lean 4.

Dates are modelled as natural numbers (day ordinals) with the usual order;
the external `augur filter` engine is modelled by the contract the commands
rely on: a record is admitted when it passes the command's date window,
length bound, query predicate and exclude list.
-/

namespace Gist

/-- One stratum of the subsampling schema: an administrative division or a
country, with a display name, a short code and a per-stratum genome cap. -/
structure Stratum where
  name : String
  sigla : String
  max_genomes : Nat
deriving DecidableEq, Repr

/-- The validated subsampling schema (`read_get_states_input` result), as the
fields `gist.py` reads from it. -/
structure SubsamplingSchema where
  job_name : String
  min_date : Nat
  max_date : Nat
  min_genome_len : Nat
  target_lineages : List String
  outgroup_lineages : List String
  states : List Stratum
  countries : List Stratum
  target_states : List String
deriving DecidableEq, Repr

/-- The validated similarity schema (`read_get_similar_genomes_input` result). -/
structure SimilaritySchema where
  job_name : String
  min_id : Rat
  max_id : Rat
  max_number_of_similar_genomes : Nat
deriving DecidableEq, Repr

/-- One row of the sanitized metadata table, with the columns the augur
queries built in `gist.py` mention. -/
structure GenomeRecord where
  strain : String
  country : String
  division : String
  pango_lineage : String
  host : String
  date : Nat
  length : Nat
deriving DecidableEq, Repr

/-- Output path of `_filter_state` for a state stratum. -/
def statePath (dir : String) (st : Stratum) : String :=
  dir ++ "/state_" ++ st.sigla ++ "_sub.txt"

/-- Output path of `_filter_country` for a country stratum. -/
def countryPath (dir : String) (c : Stratum) : String :=
  dir ++ "/country_" ++ c.sigla ++ "_sub.txt"

/-- Output path of `_filter_outgroup`. -/
def outgroupPath (dir : String) : String :=
  dir ++ "/outgroup_sub.txt"

/-- Output path of `_filter_gisaid`. -/
def gisaidPath (dir : String) : String :=
  dir ++ "/gisaid_sub.txt"

/-- One conjunct of a pandas-style `--query` expression, as built by the
f-strings of `gist.py`. -/
inductive QueryAtom
| countryEq (c : String)
| countryNe (c : String)
| divisionEq (d : String)
| lineageIn (ls : List String)
| hostEq (h : String)
deriving DecidableEq, Repr

/-- Whether a metadata record satisfies one query conjunct. -/
def matchAtom : QueryAtom → GenomeRecord → Bool
| QueryAtom.countryEq c, r => r.country == c
| QueryAtom.countryNe c, r => r.country != c
| QueryAtom.divisionEq d, r => r.division == d
| QueryAtom.lineageIn ls, r => ls.contains r.pango_lineage
| QueryAtom.hostEq h, r => r.host == h

/-- An `augur filter ... --output-strains` invocation, one field per flag of
the command strings assembled in `gist.py`. -/
structure AugurFilterCmd where
  metadata : String
  sequenceIndex : String
  minDate : Option Nat
  maxDate : Option Nat
  minLength : Option Nat
  query : List QueryAtom
  subsampleMax : Option Nat
  excludeAmbiguousDates : Bool
  groupBy : List String
  excludeFiles : List String
  outputStrains : String
deriving Repr

/-- The command built by `_filter_state` for one state stratum
(`gist.py` lines 85-101). -/
def filter_state_cmd (s : SubsamplingSchema) (dir : String) (st : Stratum) : AugurFilterCmd where
  metadata := dir ++ "/metadata_gisaid.tsv.gz"
  sequenceIndex := dir ++ "/sequence_index_gisaid.tsv.gz"
  minDate := some s.min_date
  maxDate := some s.max_date
  minLength := some s.min_genome_len
  query := [QueryAtom.countryEq "Brazil", QueryAtom.divisionEq st.name,
            QueryAtom.lineageIn s.target_lineages, QueryAtom.hostEq "Human"]
  subsampleMax := some st.max_genomes
  excludeAmbiguousDates := true
  groupBy := ["pango_lineage", "year", "month"]
  excludeFiles := []
  outputStrains := statePath dir st

/-- The command built by `_filter_country` for one country stratum
(`gist.py` lines 103-119). -/
def filter_country_cmd (s : SubsamplingSchema) (dir : String) (c : Stratum) : AugurFilterCmd where
  metadata := dir ++ "/metadata_gisaid.tsv.gz"
  sequenceIndex := dir ++ "/sequence_index_gisaid.tsv.gz"
  minDate := some s.min_date
  maxDate := some s.max_date
  minLength := some s.min_genome_len
  query := [QueryAtom.countryEq c.name, QueryAtom.lineageIn s.target_lineages,
            QueryAtom.hostEq "Human"]
  subsampleMax := some c.max_genomes
  excludeAmbiguousDates := true
  groupBy := ["pango_lineage", "year", "month"]
  excludeFiles := []
  outputStrains := countryPath dir c

/-- The command built by `_filter_outgroup` (`gist.py` lines 121-136): note
the single `--max-date` bound at the schema's `min_date`, the absence of a
`--min-date` flag, and the fixed cap of 30. -/
def filter_outgroup_cmd (s : SubsamplingSchema) (dir : String) : AugurFilterCmd where
  metadata := dir ++ "/metadata_gisaid.tsv.gz"
  sequenceIndex := dir ++ "/sequence_index_gisaid.tsv.gz"
  minDate := none
  maxDate := some s.min_date
  minLength := some s.min_genome_len
  query := [QueryAtom.lineageIn s.outgroup_lineages, QueryAtom.hostEq "Human"]
  subsampleMax := some 30
  excludeAmbiguousDates := true
  groupBy := ["pango_lineage", "year", "month"]
  excludeFiles := []
  outputStrains := outgroupPath dir

/-- Whether a record passes the date window, length bound, query and exclude
list of a command. `fileIds` gives the strain identifiers contained in each
identifier-list file named by `--exclude`. -/
def cmdAdmits (cmd : AugurFilterCmd) (fileIds : String → List String) (r : GenomeRecord) : Bool :=
  cmd.minDate.all (fun d => decide (d ≤ r.date)) &&
  cmd.maxDate.all (fun d => decide (r.date ≤ d)) &&
  cmd.minLength.all (fun n => decide (n ≤ r.length)) &&
  cmd.query.all (fun a => matchAtom a r) &&
  !(cmd.excludeFiles.any (fun f => (fileIds f).contains r.strain))

/-- Modelled from the spec: the external filtering engine contract for an
uncapped `--output-strains` invocation — it emits exactly the strains of the
corpus records admitted by the command. Used only for commands with no
`--subsample-max-sequences` flag. -/
def augurOutputStrains (cmd : AugurFilterCmd) (corpus : List GenomeRecord)
    (fileIds : String → List String) : List String :=
  (corpus.filter (cmdAdmits cmd fileIds)).map GenomeRecord.strain

/-- The fan-in loop of `get_samples` over the state batch (`gist.py`
lines 161-173): results are collected in submission order and each state's
identifier file is appended to the target list when its sigla belongs to
`target_states`, to the background list otherwise. -/
def stateFanIn (s : SubsamplingSchema) (dir : String) : List String × List String :=
  s.states.foldl
    (fun acc st =>
      if s.target_states.contains st.sigla then
        (acc.1 ++ [statePath dir st], acc.2)
      else
        (acc.1, acc.2 ++ [statePath dir st]))
    ([], [])

/-- The two identifier-file lists assembled by `get_samples` (`gist.py`
lines 157-189): the state partition, then — only when `countries` is
non-empty — the country files, then the outgroup file, all appended to the
background list. -/
def getSamplesLists (s : SubsamplingSchema) (dir : String) : List String × List String :=
  let acc := stateFanIn s dir
  let bg :=
    if s.countries.isEmpty then acc.2
    else s.countries.foldl (fun l c => l ++ [countryPath dir c]) acc.2
  (acc.1, bg ++ [outgroupPath dir])

/-- The value returned by `get_samples` (`gist.py` lines 214-217): the
joined target files followed by the joined background files when
`target_states` is non-empty, the background files alone otherwise. -/
def get_samples_return (s : SubsamplingSchema) (dir : String) : List String :=
  if s.target_states.isEmpty then (getSamplesLists s dir).2
  else (getSamplesLists s dir).1 ++ (getSamplesLists s dir).2

/-- An `augur filter --exclude-all --include ...` materialization command
writing a sequence+metadata pair. -/
structure IncludeCmd where
  includeFiles : List String
  outputMetadata : String
  outputSequences : String
deriving Repr

/-- The target-only materialization (`gist.py` lines 191-202), issued only
when `target_states` is non-empty. -/
def target_materialization (s : SubsamplingSchema) (dir : String) : Option IncludeCmd :=
  if s.target_states.isEmpty then none
  else some
    { includeFiles := (getSamplesLists s dir).1
      outputMetadata := dir ++ "/subsampled_target_states_metadata_gisaid.tsv"
      outputSequences := dir ++ "/subsampled_target_states_sequences_gisaid.fasta" }

/-- The combined materialization (`gist.py` lines 204-212), always issued;
its `--include` list is `sub_sampling_files`, the background list. -/
def combined_materialization (s : SubsamplingSchema) (dir : String) : IncludeCmd where
  includeFiles := (getSamplesLists s dir).2
  outputMetadata := dir ++ "/subsampled_metadata_gisaid.tsv"
  outputSequences := dir ++ "/subsampled_sequences_gisaid.fasta"

/-- Modelled from the spec: the engine contract for `--exclude-all
--include f1 .. fn` — the materialized identifiers are those listed in the
included files. -/
def materializedIds (cmd : IncludeCmd) (fileIds : String → List String) : List String :=
  cmd.includeFiles.flatMap fileIds

/-- The command built by `_filter_gisaid` (`gist.py` lines 138-155): the
background complement, with the whole of `get_samples`' return passed to
`--exclude` and no subsampling cap. -/
def filter_gisaid_cmd (s : SubsamplingSchema) (dir : String) : AugurFilterCmd where
  metadata := dir ++ "/metadata_gisaid.tsv.gz"
  sequenceIndex := dir ++ "/sequence_index_gisaid.tsv.gz"
  minDate := some s.min_date
  maxDate := some s.max_date
  minLength := some s.min_genome_len
  query := [QueryAtom.countryNe "Brazil", QueryAtom.lineageIn s.target_lineages,
            QueryAtom.hostEq "Human"]
  subsampleMax := none
  excludeAmbiguousDates := true
  groupBy := []
  excludeFiles := get_samples_return s dir
  outputStrains := gisaidPath dir

/-- All per-stratum identifier files of one job: one per state, one per
country, and the outgroup file. -/
def allStratumFiles (s : SubsamplingSchema) (dir : String) : List String :=
  s.states.map (statePath dir) ++ s.countries.map (countryPath dir) ++ [outgroupPath dir]

/-! ### Characterizations of the assembled lists -/

theorem stateFanIn_eq (s : SubsamplingSchema) (dir : String)
    (init : List String × List String) :
    s.states.foldl
      (fun acc st =>
        if s.target_states.contains st.sigla then
          (acc.1 ++ [statePath dir st], acc.2)
        else
          (acc.1, acc.2 ++ [statePath dir st])) init =
    (init.1 ++ (s.states.filter (fun st => s.target_states.contains st.sigla)).map (statePath dir),
     init.2 ++ (s.states.filter (fun st => !s.target_states.contains st.sigla)).map (statePath dir)) := by
  induction s.states generalizing init with
  | nil => simp
  | cons st rest ih =>
      rw [List.foldl_cons]
      by_cases h : s.target_states.contains st.sigla = true
      · have hm : st.sigla ∈ s.target_states := by simpa using h
        rw [if_pos h, ih]
        simp [List.filter_cons, hm, List.append_assoc]
      · have hm : st.sigla ∉ s.target_states := by simpa using h
        rw [if_neg h, ih]
        simp [List.filter_cons, hm, List.append_assoc]

theorem stateFanIn_fst (s : SubsamplingSchema) (dir : String) :
    (stateFanIn s dir).1 =
      (s.states.filter (fun st => s.target_states.contains st.sigla)).map (statePath dir) := by
  unfold stateFanIn
  rw [stateFanIn_eq]
  simp

theorem stateFanIn_snd (s : SubsamplingSchema) (dir : String) :
    (stateFanIn s dir).2 =
      (s.states.filter (fun st => !s.target_states.contains st.sigla)).map (statePath dir) := by
  unfold stateFanIn
  rw [stateFanIn_eq]
  simp

theorem countries_foldl (dir : String) (l : List Stratum) (init : List String) :
    l.foldl (fun acc c => acc ++ [countryPath dir c]) init = init ++ l.map (countryPath dir) := by
  induction l generalizing init with
  | nil => simp
  | cons c rest ih => simp [ih, List.append_assoc]

theorem getSamplesLists_fst (s : SubsamplingSchema) (dir : String) :
    (getSamplesLists s dir).1 =
      (s.states.filter (fun st => s.target_states.contains st.sigla)).map (statePath dir) := by
  unfold getSamplesLists
  simp [stateFanIn_fst]

theorem getSamplesLists_snd (s : SubsamplingSchema) (dir : String) :
    (getSamplesLists s dir).2 =
      (s.states.filter (fun st => !s.target_states.contains st.sigla)).map (statePath dir)
        ++ s.countries.map (countryPath dir) ++ [outgroupPath dir] := by
  unfold getSamplesLists
  by_cases h : s.countries.isEmpty = true
  · have : s.countries = [] := List.isEmpty_iff.mp h
    simp [h, stateFanIn_snd, this]
  · simp [h, stateFanIn_snd, countries_foldl, List.append_assoc]

/-- Every per-stratum identifier file occurs in the exclude list that
`_filter_gisaid` receives from `get_samples`. -/
theorem mem_get_samples_return (s : SubsamplingSchema) (dir : String) (f : String)
    (hf : f ∈ allStratumFiles s dir) : f ∈ get_samples_return s dir := by
  unfold get_samples_return
  unfold allStratumFiles at hf
  rw [List.mem_append, List.mem_append] at hf
  by_cases ht : s.target_states.isEmpty = true
  · have hts : s.target_states = [] := List.isEmpty_iff.mp ht
    simp only [ht, if_pos]
    rw [getSamplesLists_snd]
    rcases hf with (hstate | hcountry) | hout
    · rcases List.mem_map.mp hstate with ⟨st, hst, rfl⟩
      refine List.mem_append_left _ (List.mem_append_left _ ?_)
      exact List.mem_map_of_mem _ (List.mem_filter.mpr ⟨hst, by simp [hts]⟩)
    · exact List.mem_append_left _ (List.mem_append_right _ hcountry)
    · exact List.mem_append_right _ hout
  · simp only [ht, if_neg, Bool.false_eq_true, not_false_iff]
    rw [getSamplesLists_fst, getSamplesLists_snd, List.mem_append]
    rcases hf with (hstate | hcountry) | hout
    · rcases List.mem_map.mp hstate with ⟨st, hst, rfl⟩
      by_cases hmem : s.target_states.contains st.sigla = true
      · exact Or.inl (List.mem_map_of_mem _ (List.mem_filter.mpr ⟨hst, hmem⟩))
      · refine Or.inr (List.mem_append_left _ (List.mem_append_left _ ?_))
        exact List.mem_map_of_mem _ (List.mem_filter.mpr ⟨hst, by simpa using hmem⟩)
    · exact Or.inr (List.mem_append_left _ (List.mem_append_right _ hcountry))
    · exact Or.inr (List.mem_append_right _ hout)

/-! ### The similarity pipeline (`GetSimilarGenomes`) -/

/-- A Python runtime error raised by the pipeline code. -/
inductive PyError
| nameError (n : String)
| valueError (m : String)
deriving DecidableEq, Repr

/-- One row of the tabular blast output, in the column order of
`outfmt "6 qseqid sseqid pident evalue bitscore qcovhsp"`. -/
structure BlastHit where
  qseqid : String
  sseqid : String
  pident : Rat
  evalue : Rat
  bitscore : Rat
  qcovhsp : Rat
deriving DecidableEq, Repr

/-- The `NcbiblastnCommandline` invocation assembled by `perform_blast`
(`gist.py` lines 278-288). -/
structure NcbiblastnCmd where
  query : String
  db : String
  out : String
  outfmt : String
  task : String
  evalue : Rat
  num_threads : Nat
deriving Repr

/-- `perform_blast` (`gist.py` lines 278-289): it builds the blastn command
as `blast` but then evaluates the unbound name `cline`, so it raises
`NameError` on every input before the search can run. -/
def perform_blast (input_file sequences dir : String) (threads : Nat) :
    Except PyError NcbiblastnCmd :=
  let blast : NcbiblastnCmd :=
    { query := input_file
      db := sequences
      out := dir ++ "/gisaid_blastn.tsv"
      outfmt := "6 qseqid sseqid pident evalue bitscore qcovhsp"
      task := "megablast"
      evalue := 1 / 100000
      num_threads := threads }
  let _use := blast
  Except.error (PyError.nameError "cline")

/-- The coverage filter of `filter_blast_results` (`gist.py` line 297):
keep rows with `qcovhsp >= 99.9`. -/
def qcovStep (df : List BlastHit) : List BlastHit :=
  df.filter (fun h => decide ((999 : Rat) / 10 ≤ h.qcovhsp))

/-- The identity-bound filter of `filter_blast_results` (`gist.py`
lines 298-307): the lower-bound operand is the unbound name
`dblast_results_dff`, so evaluating the row mask raises `NameError`. -/
def pidentStep (df : List BlastHit) (schema : SimilaritySchema) :
    Except PyError (List BlastHit) :=
  let _use := (df, schema)
  Except.error (PyError.nameError "dblast_results_dff")

/-- The `sort_values(by="bitscore", ascending=False)` step (`gist.py`
line 308). -/
def sortStep (df : List BlastHit) : List BlastHit :=
  df.mergeSort (fun a b => decide (b.bitscore ≤ a.bitscore))

/-- The `drop_duplicates(subset=["sseqid"])` step (`gist.py` line 309):
keep the first row for each matched identifier. -/
def dedupStep (df : List BlastHit) : List BlastHit :=
  df.foldl (fun acc h => if acc.any (fun x => x.sseqid == h.sseqid) then acc else acc ++ [h]) []

/-- The truncation step (`gist.py` lines 310-312): written as `df.head(...)`
where `df` is an unbound name, so it raises `NameError` when reached. -/
def headStep (df : List BlastHit) (schema : SimilaritySchema) :
    Except PyError (List BlastHit) :=
  let _use := (df, schema)
  Except.error (PyError.nameError "df")

/-- `filter_blast_results` (`gist.py` lines 291-315), step by step as the
source sequences the pandas operations. -/
def filter_blast_results (hits : List BlastHit) (schema : SimilaritySchema) :
    Except PyError (List String) := do
  let df := qcovStep hits
  let df ← pidentStep df schema
  let df := sortStep df
  let df := dedupStep df
  let df ← headStep df schema
  pure (df.map BlastHit.sseqid)

/-- A sequence record of the sequence store. -/
structure SeqRecord where
  id : String
  seq : String
deriving DecidableEq, Repr

/-- One row of the metadata table, keyed by its `strain` column. -/
structure MetaRow where
  strain : String
  rest : String
deriving DecidableEq, Repr

/-- The body of the sequence-record selection loop of
`get_gisaid_filtered_genomes` (`gist.py` lines 330-332), as a function of
the records the iterator yields: keep those whose identifier occurs in the
matched list. -/
def selectRecords (records : List SeqRecord) (requested : List String) : List SeqRecord :=
  records.filter (fun r => requested.contains r.id)

/-- The metadata selection of `get_gisaid_filtered_genomes` (`gist.py`
line 337): `metadata_df[metadata_df["strain"].isin(matches)]`. -/
def selectMeta (rows : List MetaRow) (requested : List String) : List MetaRow :=
  rows.filter (fun r => requested.contains r.strain)

/-- The lazy iterator `SeqIO.parse` returns, bound to the state of the file
handle it reads from. -/
structure ParseIterator where
  handleClosed : Bool
  records : List SeqRecord
deriving DecidableEq, Repr

/-- The record acquisition of `get_gisaid_filtered_genomes` (`gist.py`
lines 327-328): the `with` block contains only the `SeqIO.parse` call, so
the handle is closed when the block exits — before anything consumes the
lazy iterator. -/
def seqio_parse_block (store : List SeqRecord) : ParseIterator where
  handleClosed := true
  records := store

/-- Consuming a lazy parse iterator: the first read from a closed handle
raises `ValueError`; an open handle yields the file's records. -/
def iterateRecords (it : ParseIterator) : Except PyError (List SeqRecord) :=
  if it.handleClosed then Except.error (PyError.valueError "I/O operation on closed file")
  else Except.ok it.records

/-- The whole sequence-record selection step (`gist.py` lines 327-332):
iterate the parse iterator left by the `with` block, then filter by
membership in the matched list. -/
def select_records_step (store : List SeqRecord) (requested : List String) :
    Except PyError (List SeqRecord) := do
  let recs ← iterateRecords (seqio_parse_block store)
  pure (selectRecords recs requested)

/-- `get_gisaid_filtered_genomes` (`gist.py` lines 317-338): database build,
blast search, ranking, then the two record selections. -/
def get_gisaid_filtered_genomes (input_file sequences dir : String) (threads : Nat)
    (hits : List BlastHit) (store : List SeqRecord) (meta : List MetaRow)
    (schema : SimilaritySchema) : Except PyError (List SeqRecord × List MetaRow) := do
  let _blast ← perform_blast input_file sequences dir threads
  let matched ← filter_blast_results hits schema
  let selected ← select_records_step store matched
  pure (selected, selectMeta meta matched)

/-! ### Failure propagation in the concurrent state batch -/

/-- The body of `_filter_state` as a worker task (`gist.py` lines 85-101):
`subprocess.run` is invoked without `check`, so the engine's exit status
(given by `engine`) is discarded and the output path is returned whatever
the invocation's outcome. -/
def filter_state_task (engine : AugurFilterCmd → Int) (s : SubsamplingSchema)
    (dir : String) (st : Stratum) : Except String String :=
  let _returncode := engine (filter_state_cmd s dir st)
  Except.ok (statePath dir st)

/-- The fan-in loop over completed task outcomes (`gist.py` lines 168-173):
`job.result()` is taken in submission order, and the first outcome that
raised re-raises its exception, abandoning the rest of the loop. The
executor's context exit has already waited for every submitted task, so all
outcomes in the list are completed ones. -/
def collectResults : List (Except String String) → Except String (List String)
| [] => Except.ok []
| r :: rs =>
  match r with
  | Except.error e => Except.error e
  | Except.ok v =>
    match collectResults rs with
    | Except.error e => Except.error e
    | Except.ok vs => Except.ok (v :: vs)

/-- The stratum failures the caller of the fan-in loop gets to see. -/
def surfacedFailures (rs : List (Except String String)) : List String :=
  match collectResults rs with
  | Except.error e => [e]
  | Except.ok _ => []

/-- All failures present in a batch of completed task outcomes (the set the
spec requires to be surfaced). -/
def allFailures (rs : List (Except String String)) : List String :=
  rs.filterMap (fun r => match r with | Except.error e => some e | Except.ok _ => none)

/-! ### The worker pool as an explicitly scheduled event log -/

/-- A pool run: the schedule lists the task indices in the order the worker
threads complete them, and each completion appends `(index, result)` to the
log. -/
def poolRun (f : Nat → String) (sched : List Nat) : List (Nat × String) :=
  sched.map (fun i => (i, f i))

/-- `job.result()` for the job submitted at index `i`: look its completion
up in the log. -/
def jobResult (log : List (Nat × String)) (i : Nat) : String :=
  ((log.find? (fun e => e.1 == i)).map Prod.snd).getD ""

/-- The default stratum used to total out-of-range indexing. -/
def defStratum : Stratum := { name := "", sigla := "", max_genomes := 0 }

/-- The state-batch fan-in of `get_samples`, reading each submitted job's
result from the completion log of an explicitly scheduled pool run. -/
def stateFanInSched (s : SubsamplingSchema) (dir : String) (sched : List Nat) :
    List String × List String :=
  let log := poolRun (fun i => statePath dir (s.states.getD i defStratum)) sched
  (List.range s.states.length).foldl
    (fun acc i =>
      if s.target_states.contains ((s.states.getD i defStratum).sigla) then
        (acc.1 ++ [jobResult log i], acc.2)
      else
        (acc.1, acc.2 ++ [jobResult log i]))
    ([], [])

/-- `get_samples`' list assembly under explicit schedules for the state and
country batches. -/
def getSamplesListsSched (s : SubsamplingSchema) (dir : String)
    (schedStates schedCountries : List Nat) : List String × List String :=
  let acc := stateFanInSched s dir schedStates
  let clog := poolRun (fun i => countryPath dir (s.countries.getD i defStratum)) schedCountries
  let bg :=
    if s.countries.isEmpty then acc.2
    else (List.range s.countries.length).foldl (fun l i => l ++ [jobResult clog i]) acc.2
  (acc.1, bg ++ [outgroupPath dir])

theorem jobResult_poolRun (f : Nat → String) (sched : List Nat) (i : Nat)
    (h : i ∈ sched) : jobResult (poolRun f sched) i = f i := by
  unfold jobResult poolRun
  have hsome : (List.find? (fun e => e.1 == i) (sched.map (fun j => (j, f j)))).isSome := by
    rw [List.find?_isSome]
    exact ⟨(i, f i), List.mem_map_of_mem _ h, by simp⟩
  obtain ⟨e, he⟩ := Option.isSome_iff_exists.mp hsome
  have hp := List.find?_some he
  have hmem := List.mem_of_find?_eq_some he
  obtain ⟨j, _, rfl⟩ := List.mem_map.mp hmem
  have hj : j = i := by simpa using hp
  subst hj
  simp [he]

theorem foldl_congr_mem {β : Type} (l : List Nat) (g g' : β → Nat → β)
    (h : ∀ i ∈ l, ∀ acc, g acc i = g' acc i) (init : β) :
    l.foldl g init = l.foldl g' init := by
  induction l generalizing init with
  | nil => rfl
  | cons x xs ih =>
      rw [List.foldl_cons, List.foldl_cons, h x (List.mem_cons_self x xs)]
      exact ih (fun i hi acc => h i (List.mem_cons_of_mem x hi) acc) _

theorem foldl_range_getD {α β : Type} (l : List α) (d : α) (g : β → α → β) (init : β) :
    (List.range l.length).foldl (fun acc i => g acc (l.getD i d)) init = l.foldl g init := by
  induction l generalizing init with
  | nil => rfl
  | cons x xs ih =>
      rw [List.length_cons, List.range_succ_eq_map, List.foldl_cons, List.foldl_map,
        List.foldl_cons]
      simpa using ih (g init x)

theorem stateFanInSched_eq (s : SubsamplingSchema) (dir : String) (sched : List Nat)
    (hperm : sched.Perm (List.range s.states.length)) :
    stateFanInSched s dir sched = stateFanIn s dir := by
  unfold stateFanInSched stateFanIn
  have hres : ∀ i ∈ List.range s.states.length,
      jobResult (poolRun (fun i => statePath dir (s.states.getD i defStratum)) sched) i =
        statePath dir (s.states.getD i defStratum) := by
    intro i hi
    exact jobResult_poolRun _ _ _ (hperm.mem_iff.mpr hi)
  rw [foldl_congr_mem (List.range s.states.length) _
    (fun acc i =>
      if s.target_states.contains ((s.states.getD i defStratum).sigla) then
        (acc.1 ++ [statePath dir (s.states.getD i defStratum)], acc.2)
      else
        (acc.1, acc.2 ++ [statePath dir (s.states.getD i defStratum)]))
    (fun i hi acc => by rw [hres i hi])]
  exact foldl_range_getD s.states defStratum
    (fun acc st =>
      if s.target_states.contains st.sigla then (acc.1 ++ [statePath dir st], acc.2)
      else (acc.1, acc.2 ++ [statePath dir st])) ([], [])

theorem getSamplesListsSched_eq (s : SubsamplingSchema) (dir : String)
    (schedStates schedCountries : List Nat)
    (h1 : schedStates.Perm (List.range s.states.length))
    (h2 : schedCountries.Perm (List.range s.countries.length)) :
    getSamplesListsSched s dir schedStates schedCountries = getSamplesLists s dir := by
  unfold getSamplesListsSched getSamplesLists
  rw [stateFanInSched_eq s dir schedStates h1]
  have hres : ∀ i ∈ List.range s.countries.length,
      jobResult (poolRun (fun i => countryPath dir (s.countries.getD i defStratum)) schedCountries) i =
        countryPath dir (s.countries.getD i defStratum) := by
    intro i hi
    exact jobResult_poolRun _ _ _ (h2.mem_iff.mpr hi)
  by_cases hc : s.countries.isEmpty = true
  · simp [hc]
  · simp only [hc, Bool.false_eq_true, if_neg, not_false_iff]
    rw [foldl_congr_mem (List.range s.countries.length) _
      (fun l i => l ++ [countryPath dir (s.countries.getD i defStratum)])
      (fun i hi l => by rw [hres i hi])]
    rw [foldl_range_getD s.countries defStratum (fun l c => l ++ [countryPath dir c])]

/-- The identifiers the job's background outputs contain overall: the
combined materialization written by `get_samples` plus the
background-complement output materialized by `get_global`. -/
def overallBackgroundIds (s : SubsamplingSchema) (dir : String)
    (corpus : List GenomeRecord) (fileIds : String → List String) : List String :=
  materializedIds (combined_materialization s dir) fileIds
    ++ augurOutputStrains (filter_gisaid_cmd s dir) corpus fileIds

/-! ### Concrete job used by counterexamples and witnesses -/

def spStratum : Stratum := { name := "Sao Paulo", sigla := "SP", max_genomes := 100 }

def rjStratum : Stratum := { name := "Rio de Janeiro", sigla := "RJ", max_genomes := 50 }

def arStratum : Stratum := { name := "Argentina", sigla := "AR", max_genomes := 40 }

def demoSchema : SubsamplingSchema where
  job_name := "job"
  min_date := 100
  max_date := 200
  min_genome_len := 29000
  target_lineages := ["P.1"]
  outgroup_lineages := ["B.1"]
  states := [spStratum, rjStratum]
  countries := []
  target_states := ["SP"]

def demoSchemaC : SubsamplingSchema := { demoSchema with countries := [arStratum] }

def demoDir : String := "out/job"

/-- Identifier-file contents for the demo job: each stratum selected one
strain. -/
def demoFileIds : String → List String := fun f =>
  if f == statePath demoDir spStratum then ["EPI_SP"]
  else if f == statePath demoDir rjStratum then ["EPI_RJ"]
  else if f == outgroupPath demoDir then ["EPI_OG"]
  else []

def demoRecord : GenomeRecord where
  strain := "EPI_NEW"
  country := "Chile"
  division := "x"
  pango_lineage := "P.1"
  host := "Human"
  date := 150
  length := 30000

/-! ### Claim theorems -/

/-- C1 (counterexample): in a job whose target stratum SP selected the
identifier EPI_SP, the target-only materialization's include list is
exactly SP's identifier file, yet EPI_SP is absent from the combined
materialization — the combined include list is not the union of the target
and background inclusion sets. -/
theorem combined_output_drops_target_counterexample :
    target_materialization demoSchema demoDir =
      some { includeFiles := [statePath demoDir spStratum]
             outputMetadata := demoDir ++ "/subsampled_target_states_metadata_gisaid.tsv"
             outputSequences := demoDir ++ "/subsampled_target_states_sequences_gisaid.fasta" }
    ∧ "EPI_SP" ∈ demoFileIds (statePath demoDir spStratum)
    ∧ "EPI_SP" ∉ materializedIds (combined_materialization demoSchema demoDir) demoFileIds := by
  refine ⟨rfl, by decide, by decide⟩

/-- C1 (amended): the combined materialization's include list is exactly the
background inclusion list — the non-target state files, the country files
and the outgroup file — with no target-stratum file in it. -/
theorem combined_output_uses_background_only (s : SubsamplingSchema) (dir : String) :
    (combined_materialization s dir).includeFiles =
      (s.states.filter (fun st => !s.target_states.contains st.sigla)).map (statePath dir)
        ++ s.countries.map (countryPath dir) ++ [outgroupPath dir] := by
  simpa [combined_materialization] using getSamplesLists_snd s dir

/-- C2: any strain the background-complement invocation (`_filter_gisaid`)
outputs is absent from every per-stratum identifier file, because
`get_samples`' whole file list is passed to `--exclude`. -/
theorem background_complement_disjoint (s : SubsamplingSchema) (dir : String)
    (corpus : List GenomeRecord) (fileIds : String → List String) (x : String)
    (hx : x ∈ augurOutputStrains (filter_gisaid_cmd s dir) corpus fileIds) :
    x ∉ (allStratumFiles s dir).flatMap fileIds := by
  intro hmem
  rcases List.mem_flatMap.mp hmem with ⟨f, hf, hxf⟩
  unfold augurOutputStrains at hx
  rcases List.mem_map.mp hx with ⟨r, hr, rfl⟩
  have hadm := (List.mem_filter.mp hr).2
  simp only [cmdAdmits, Bool.and_eq_true, Bool.not_eq_true', List.any_eq_false] at hadm
  have hnot := hadm.2 f (mem_get_samples_return s dir f hf)
  simp only [List.elem_iff] at hnot
  exact hnot hxf

/-- C2 (witness): in the demo job, the strain EPI_NEW output by the
complement filter belongs to no stratum's identifier file. -/
theorem background_complement_disjoint_witness :
    "EPI_NEW" ∉ (allStratumFiles demoSchema demoDir).flatMap demoFileIds :=
  background_complement_disjoint demoSchema demoDir [demoRecord] demoFileIds "EPI_NEW"
    (by decide)

/-- C3 (code evaluation): on a well-formed hit row, `filter_blast_results`
raises `NameError` for the unbound `dblast_results_dff` instead of
returning an identifier list. -/
theorem filter_blast_results_raises_nameError :
    filter_blast_results
      [{ qseqid := "q", sseqid := "A", pident := 9995 / 100, evalue := 0,
         bitscore := 500, qcovhsp := 100 }]
      { job_name := "sim", min_id := 95, max_id := 100, max_number_of_similar_genomes := 10 }
      = Except.error (PyError.nameError "dblast_results_dff") := rfl

/-- C4: the similarity pipeline as written never completes: `perform_blast`
evaluates the unbound name `cline`, so `get_gisaid_filtered_genomes` fails
on every input before any output is produced; and `filter_blast_results` on
its own always raises `NameError` for `dblast_results_dff`. -/
theorem similarity_pipeline_always_fails (input_file sequences dir : String) (threads : Nat)
    (hits : List BlastHit) (store : List SeqRecord) (meta : List MetaRow)
    (schema : SimilaritySchema) :
    get_gisaid_filtered_genomes input_file sequences dir threads hits store meta schema
        = Except.error (PyError.nameError "cline")
    ∧ filter_blast_results hits schema
        = Except.error (PyError.nameError "dblast_results_dff") :=
  ⟨rfl, rfl⟩

/-- C5 (code evaluation): the record-selection step iterates the parse
iterator after its `with` block closed the handle, so it raises
`ValueError` before examining any record — the intersection is never
computed, here on a concrete store and a requested list with a duplicate. -/
theorem record_selection_raises_valueError :
    select_records_step [⟨"A", "x"⟩, ⟨"B", "y"⟩] ["A", "A", "C"]
      = Except.error (PyError.valueError "I/O operation on closed file") := rfl

/-- Had the handle still been open when the loop ran, the selection step
would return exactly the membership filter the claim describes: the records
whose identifier lies in the requested list, insensitive to duplicates in
that list, with distinct output identifiers whenever the store's are
distinct — and likewise for the metadata rows. This is the evident intent
of the loop body; only the closed handle prevents it. -/
theorem select_records_open_handle_intent (store : List SeqRecord) (meta : List MetaRow)
    (requested requested' : List String) :
    iterateRecords { handleClosed := false, records := store } = Except.ok store
    ∧ (∀ r, r ∈ selectRecords store requested ↔ r ∈ store ∧ r.id ∈ requested)
    ∧ (∀ m, m ∈ selectMeta meta requested ↔ m ∈ meta ∧ m.strain ∈ requested)
    ∧ ((∀ x, x ∈ requested ↔ x ∈ requested') →
        selectRecords store requested = selectRecords store requested')
    ∧ ((store.map SeqRecord.id).Nodup → ((selectRecords store requested).map SeqRecord.id).Nodup) := by
  refine ⟨rfl, ?_, ?_, ?_, ?_⟩
  · intro r
    simp [selectRecords]
  · intro m
    simp [selectMeta]
  · intro h
    unfold selectRecords
    apply List.filter_congr
    intro r _
    have h1 : requested.contains r.id = true ↔ requested'.contains r.id = true := by
      rw [List.elem_iff, List.elem_iff]
      exact h r.id
    exact Bool.eq_iff_iff.mpr h1
  · intro h
    have hsub : List.Sublist ((selectRecords store requested).map SeqRecord.id)
        (store.map SeqRecord.id) :=
      (List.filter_sublist store).map SeqRecord.id
    exact h.sublist hsub

/-- C6 (code evaluation): on the spec's own two-hit scenario,
`filter_blast_results` never reaches the identity-bound, deduplication or
ranking steps — it raises `NameError` for `dblast_results_dff`. -/
theorem filter_blast_results_scenario_raises :
    filter_blast_results
      [{ qseqid := "q", sseqid := "A", pident := 9995 / 100, evalue := 0,
         bitscore := 500, qcovhsp := 100 },
       { qseqid := "q", sseqid := "B", pident := 80, evalue := 0,
         bitscore := 400, qcovhsp := 100 }]
      { job_name := "sim", min_id := 95, max_id := 100, max_number_of_similar_genomes := 10 }
      = Except.error (PyError.nameError "dblast_results_dff") := rfl

/-- C7: the outgroup filter invocation has no lower date bound, is bounded
above by the schema's `min_date`, requires the minimum genome length, caps
at 30 with `(pango_lineage, year, month)` grouping, and admits exactly the
records of an outgroup lineage with human host inside those bounds. -/
theorem outgroup_filter_spec (s : SubsamplingSchema) (dir : String)
    (fileIds : String → List String) (r : GenomeRecord) :
    (filter_outgroup_cmd s dir).minDate = none
    ∧ (filter_outgroup_cmd s dir).maxDate = some s.min_date
    ∧ (filter_outgroup_cmd s dir).minLength = some s.min_genome_len
    ∧ (filter_outgroup_cmd s dir).subsampleMax = some 30
    ∧ (filter_outgroup_cmd s dir).groupBy = ["pango_lineage", "year", "month"]
    ∧ (cmdAdmits (filter_outgroup_cmd s dir) fileIds r = true ↔
        (r.date ≤ s.min_date ∧ s.min_genome_len ≤ r.length ∧
         r.pango_lineage ∈ s.outgroup_lineages ∧ r.host = "Human")) := by
  refine ⟨rfl, rfl, rfl, rfl, rfl, ?_⟩
  simp [cmdAdmits, filter_outgroup_cmd, matchAtom, and_assoc]

/-- C8: every country stratum's identifier file lands in the background
list; the target list consists of exactly the target-state files (so never
a country file); and with an empty `countries` list the country stage
contributes nothing — the background list is the non-target state files
plus the outgroup file, and the job's overall background identifiers are
exactly those of the non-target states, the outgroup and the complement. -/
theorem countries_background_spec (s : SubsamplingSchema) (dir : String)
    (corpus : List GenomeRecord) (fileIds : String → List String) :
    (∀ c ∈ s.countries, countryPath dir c ∈ (getSamplesLists s dir).2)
    ∧ ((getSamplesLists s dir).1 =
        (s.states.filter (fun st => s.target_states.contains st.sigla)).map (statePath dir))
    ∧ (s.countries = [] →
        (getSamplesLists s dir).2 =
          (s.states.filter (fun st => !s.target_states.contains st.sigla)).map (statePath dir)
            ++ [outgroupPath dir])
    ∧ (s.countries = [] → ∀ x,
        x ∈ overallBackgroundIds s dir corpus fileIds ↔
          (x ∈ ((s.states.filter (fun st => !s.target_states.contains st.sigla)).map
                  (statePath dir)).flatMap fileIds
           ∨ x ∈ fileIds (outgroupPath dir)
           ∨ x ∈ augurOutputStrains (filter_gisaid_cmd s dir) corpus fileIds)) := by
  refine ⟨?_, getSamplesLists_fst s dir, ?_, ?_⟩
  · intro c hc
    rw [getSamplesLists_snd]
    exact List.mem_append_left _ (List.mem_append_right _ (List.mem_map_of_mem _ hc))
  · intro hc
    rw [getSamplesLists_snd, hc]
    simp
  · intro hc x
    unfold overallBackgroundIds materializedIds
    rw [combined_output_uses_background_only, hc]
    simp [or_assoc]

/-- C8 (witness): with a country configured its file is in the background
list, and with the empty country list the background list is the RJ state
file followed by the outgroup file. -/
theorem countries_background_spec_witness :
    countryPath demoDir arStratum ∈ (getSamplesLists demoSchemaC demoDir).2
    ∧ (getSamplesLists demoSchema demoDir).2 =
        (demoSchema.states.filter
            (fun st => !demoSchema.target_states.contains st.sigla)).map (statePath demoDir)
          ++ [outgroupPath demoDir] := by
  constructor
  · exact (countries_background_spec demoSchemaC demoDir [] demoFileIds).1 arStratum (by decide)
  · exact (countries_background_spec demoSchema demoDir [] demoFileIds).2.2.1 rfl

/-- C9 (counterexample): a batch with two failed strata surfaces only the
first failure — the surfaced failure list differs from the batch's full
failure list. -/
theorem first_failure_only_counterexample :
    surfacedFailures [Except.error "state SP task failed", Except.error "state RJ task failed"]
        = ["state SP task failed"]
    ∧ allFailures [Except.error "state SP task failed", Except.error "state RJ task failed"]
        = ["state SP task failed", "state RJ task failed"]
    ∧ surfacedFailures [Except.error "state SP task failed", Except.error "state RJ task failed"]
        ≠ allFailures [Except.error "state SP task failed", Except.error "state RJ task failed"] := by
  refine ⟨rfl, rfl, by decide⟩

/-- C9 (amended): all task outcomes of a batch are completed before the
fan-in reads them, but the loop re-raises exactly the first failure in
submission order — not a collected list — and an external filter invocation
that exits nonzero raises nothing at all: the stratum's path is returned as
a success. -/
theorem stratum_failure_reporting (engine : AugurFilterCmd → Int) (s : SubsamplingSchema)
    (dir : String) (st : Stratum) (pre suf : List (Except String String)) (e : String)
    (hpre : ∀ r ∈ pre, ∃ v, r = Except.ok v) :
    collectResults (pre ++ Except.error e :: suf) = Except.error e
    ∧ filter_state_task engine s dir st = Except.ok (statePath dir st) := by
  refine ⟨?_, rfl⟩
  induction pre with
  | nil => rfl
  | cons r rs ih =>
      obtain ⟨v, rfl⟩ := hpre r (List.mem_cons_self r rs)
      have h := ih (fun r hr => hpre r (List.mem_cons_of_mem _ hr))
      rw [List.cons_append]
      simp [collectResults, h]

/-- C9 (witness): a concrete batch — one success, then two failures — whose
fan-in surfaces the first failure, and a state task whose engine exits
nonzero yet reports success. -/
theorem stratum_failure_reporting_witness :
    collectResults [Except.ok "f1", Except.error "boom", Except.error "later"]
        = Except.error "boom"
    ∧ filter_state_task (fun _ => 1) demoSchema demoDir spStratum
        = Except.ok (statePath demoDir spStratum) :=
  stratum_failure_reporting (fun _ => 1) demoSchema demoDir spStratum
    [Except.ok "f1"] [Except.error "later"] "boom"
    (fun r hr => by
      simp only [List.mem_singleton] at hr
      exact ⟨"f1", hr⟩)

/-- C10: under any two completion schedules of the worker pools (any
permutations of the submitted task indices), `get_samples` assembles the
same target and background identifier-file lists, and they equal the pure
function of the schema. -/
theorem scheduling_determinism (s : SubsamplingSchema) (dir : String)
    (σ₁ σ₂ τ₁ τ₂ : List Nat)
    (h1 : σ₁.Perm (List.range s.states.length))
    (h2 : σ₂.Perm (List.range s.countries.length))
    (h3 : τ₁.Perm (List.range s.states.length))
    (h4 : τ₂.Perm (List.range s.countries.length)) :
    getSamplesListsSched s dir σ₁ σ₂ = getSamplesListsSched s dir τ₁ τ₂
    ∧ getSamplesListsSched s dir σ₁ σ₂ = getSamplesLists s dir := by
  have a := getSamplesListsSched_eq s dir σ₁ σ₂ h1 h2
  have b := getSamplesListsSched_eq s dir τ₁ τ₂ h3 h4
  exact ⟨a.trans b.symm, a⟩

/-- C10 (witness): the demo job run under two opposite state-batch
schedules yields identical lists, equal to the schema's pure value. -/
theorem scheduling_determinism_witness :
    getSamplesListsSched demoSchema demoDir [1, 0] [] =
        getSamplesListsSched demoSchema demoDir [0, 1] []
    ∧ getSamplesListsSched demoSchema demoDir [1, 0] [] = getSamplesLists demoSchema demoDir :=
  scheduling_determinism demoSchema demoDir [1, 0] [] [0, 1] []
    (by decide) (by decide) (by decide) (by decide)

end Gist
